import Mathlib

/-!
Verification of the capture-assemble-deliver pipeline of `v3gyazio.py`
(`RecorderThread.run`, `pause`, `resume`, `stop`).

The recorder thread runs a timed loop: while the stop flag is unset it
polls the pause flag, grabs one frame of the configured bounding box,
saves it to the spool directory as `frame_<n>.png`, and sleeps the
remainder of the frame interval.  An exception in the loop emits an
`error:` event and sets the stop flag.  After the loop: if no frames
were captured, `no_frames` is emitted, the spool directory is removed
and an empty result is reported; otherwise the frames are assembled into
a GIF at the configured fps, optionally uploaded (HTTP 200 with a JSON
`url` field counts as success), the individual frame files are removed,
and the final result (uploaded url, or local path when the url is empty)
is emitted.

The embedding below models one execution of `RecorderThread.run`.  The
environment of each loop iteration (flag snapshots, capture outcome,
elapsed capture time) is an `IterEnv`; the loop consumes a list of them.
-/

namespace Gyazio

/-- Raster bytes of one captured frame, abstracted. -/
abbrev FrameData := Nat

/-- Events emitted on the recorder's progress signal
(`self.progress_signal.emit(...)` in `RecorderThread.run`). -/
inductive ProgressEvent where
  | recording
  | assembling
  | uploading
  | no_frames
  | error (detail : String)
deriving DecidableEq

/-- The two mutable control flags of `RecorderThread`
(`self._pause`, `self._stop`). -/
structure Flags where
  pauseFlag : Bool
  stopFlag : Bool
deriving DecidableEq

/-- `RecorderThread.pause`: sets the pause flag. -/
def pauseRec (s : Flags) : Flags := { s with pauseFlag := true }

/-- `RecorderThread.resume`: clears the pause flag. -/
def resumeRec (s : Flags) : Flags := { s with pauseFlag := false }

/-- `RecorderThread.stop`: sets the stop flag. -/
def stopRec (s : Flags) : Flags := { s with stopFlag := true }

/-- `frame_interval = 1.0 / self.fps`. -/
def frame_interval (fps : Nat) : ℚ := 1 / (fps : ℚ)

/-- The sleep performed at the end of one successful loop iteration:
`to_sleep = frame_interval - elapsed; if to_sleep > 0: time.sleep(to_sleep)`.
The value is the duration actually slept (0 when no sleep happens). -/
def toSleep (fps : Nat) (elapsed : ℚ) : ℚ :=
  if 0 < frame_interval fps - elapsed then frame_interval fps - elapsed else 0

/-- Environment of one iteration of the capture loop: the flag values the
iteration observes, the outcome of the grab-and-save step (frame data, or
the message of the raised exception), and the time that step consumed. -/
structure IterEnv where
  stopFlag : Bool
  pauseFlag : Bool
  capture : Except String FrameData
  elapsed : ℚ

/-- State threaded through the capture loop: the spooled frames with their
sequence numbers (`frame_paths` and the numbers embedded in the file
names), the next sequence number (`frame_num`), the emitted progress
events, the sleeps performed, and whether an exception was caught. -/
structure LoopState where
  frames : List (Nat × FrameData)
  frameNum : Nat
  events : List ProgressEvent
  sleeps : List ℚ
  errored : Bool

/-- The body of one successful loop iteration: append the frame to the
spool under the next sequence number, bump `frame_num`, sleep. -/
def captureStep (fps : Nat) (st : LoopState) (d : FrameData) (elapsed : ℚ) : LoopState :=
  { st with
    frames := st.frames ++ [(st.frameNum, d)]
    frameNum := st.frameNum + 1
    sleeps := st.sleeps ++ [toSleep fps elapsed] }

/-- The `while not self._stop` loop of `RecorderThread.run`.  A paused
iteration only sleeps on the 0.05s poll.  An exception emits
`error:<detail>` and ends the loop (the handler sets `self._stop`). -/
def runLoop (fps : Nat) : List IterEnv → LoopState → LoopState
  | [], st => st
  | e :: rest, st =>
    if e.stopFlag then st
    else if e.pauseFlag then runLoop fps rest st
    else
      match e.capture with
      | Except.error msg =>
          { st with events := st.events ++ [ProgressEvent.error msg], errored := true }
      | Except.ok d => runLoop fps rest (captureStep fps st d e.elapsed)

/-- Loop state at entry to `run`: `recording` has been emitted, nothing
captured yet. -/
def initState : LoopState :=
  { frames := [], frameNum := 0, events := [ProgressEvent.recording], sleeps := [], errored := false }

/-- Outcome of `imageio.mimsave` (the assembly step). -/
inductive AssemblyOutcome where
  | ok
  | failure (msg : String)

/-- Outcome of the single `requests.post` upload attempt: an HTTP
response with status code and the JSON body's `url` field (`none` models
a missing or null field), or a raised exception (timeout, connection
error). -/
inductive DeliveryOutcome where
  | response (status : Nat) (urlField : Option String)
  | exn (msg : String)

/-- `url` after the upload block: `r.json().get('url', '') or ''` when
`r.status_code == 200`, `''` otherwise or on exception. -/
def extractUrl : DeliveryOutcome → String
  | DeliveryOutcome.response status urlField =>
      if status = 200 then
        match urlField with
        | none => ""
        | some u => u
      else ""
  | DeliveryOutcome.exn _ => ""

/-- The assembled GIF: its frame sequence, its declared playback fps
(the `fps=self.fps` argument of `mimsave`), and its file path. -/
structure Artifact where
  frames : List (Nat × FrameData)
  fps : Nat
  path : String
deriving DecidableEq

/-- Observable outcome of one `RecorderThread.run` execution: the events
emitted, the argument of `finished_signal.emit`, whether the spool
directory was removed (`shutil.rmtree(self.tmpdir)`), whether the
individual frame files were removed (the `os.remove(p)` loop), and the
assembled artifact if one was produced. -/
structure RunResult where
  events : List ProgressEvent
  result : String
  spoolRemoved : Bool
  frameFilesRemoved : Bool
  artifact : Option Artifact
deriving DecidableEq

/-- The code after the capture loop in `RecorderThread.run`: the
`no_frames` early return, assembly, the optional upload, the frame-file
cleanup, and the final `finished_signal.emit`. -/
def finishRun (fps : Nat) (server_url : Option String) (outPath : String)
    (asm : AssemblyOutcome) (del : DeliveryOutcome) (st : LoopState) : RunResult :=
  if st.frames.length = 0 then
    { events := st.events ++ [ProgressEvent.no_frames]
      result := ""
      spoolRemoved := true
      frameFilesRemoved := true
      artifact := none }
  else
    match asm with
    | AssemblyOutcome.failure msg =>
        { events := st.events ++ [ProgressEvent.assembling, ProgressEvent.error msg]
          result := ""
          spoolRemoved := false
          frameFilesRemoved := false
          artifact := none }
    | AssemblyOutcome.ok =>
        let art : Artifact := { frames := st.frames, fps := fps, path := outPath }
        match server_url with
        | none =>
            { events := st.events ++ [ProgressEvent.assembling]
              result := outPath
              spoolRemoved := false
              frameFilesRemoved := true
              artifact := some art }
        | some _ =>
            let url := extractUrl del
            { events := st.events ++ [ProgressEvent.assembling, ProgressEvent.uploading]
              result := if url = "" then outPath else url
              spoolRemoved := false
              frameFilesRemoved := true
              artifact := some art }

/-- One full execution of `RecorderThread.run`. -/
def runSession (fps : Nat) (server_url : Option String) (outPath : String)
    (envs : List IterEnv) (asm : AssemblyOutcome) (del : DeliveryOutcome) : RunResult :=
  finishRun fps server_url outPath asm del (runLoop fps envs initState)

/-- Number of `error:` events in an event list. -/
def errCount (evts : List ProgressEvent) : Nat :=
  (evts.filter fun e =>
    match e with
    | ProgressEvent.error _ => true
    | _ => false).length

/-- A concrete iteration environment that captures one frame instantly. -/
def envOk : IterEnv :=
  { stopFlag := false, pauseFlag := false, capture := Except.ok 7, elapsed := 0 }

/-- A concrete iteration environment whose grab raises. -/
def envErr : IterEnv :=
  { stopFlag := false, pauseFlag := false, capture := Except.error "grab failed", elapsed := 0 }

/-- A concrete paused iteration environment. -/
def envPause : IterEnv :=
  { stopFlag := false, pauseFlag := true, capture := Except.ok 9, elapsed := 0 }

/-! ### Helper lemmas about the loop and the post-loop code -/

theorem errCount_append (a b : List ProgressEvent) :
    errCount (a ++ b) = errCount a + errCount b := by
  simp [errCount, List.filter_append]

/-- The spool invariant: sequence numbers are `0, 1, ..., frameNum - 1`
in order, and `frameNum` counts the spooled frames. -/
theorem runLoop_frames_inv (fps : Nat) (envs : List IterEnv) (st : LoopState)
    (h1 : st.frames.map Prod.fst = List.range st.frameNum)
    (h2 : st.frameNum = st.frames.length) :
    (runLoop fps envs st).frames.map Prod.fst = List.range (runLoop fps envs st).frameNum
    ∧ (runLoop fps envs st).frameNum = (runLoop fps envs st).frames.length := by
  induction envs generalizing st with
  | nil => exact ⟨h1, h2⟩
  | cons e rest ih =>
    by_cases hs : e.stopFlag
    · simpa [runLoop, hs] using And.intro h1 h2
    by_cases hp : e.pauseFlag
    · simpa [runLoop, hs, hp] using ih st h1 h2
    cases hc : e.capture with
    | error msg => simpa [runLoop, hs, hp, hc] using And.intro h1 h2
    | ok d =>
        have h1' : (captureStep fps st d e.elapsed).frames.map Prod.fst
            = List.range (captureStep fps st d e.elapsed).frameNum := by
          simp [captureStep, h1, List.range_succ]
        have h2' : (captureStep fps st d e.elapsed).frameNum
            = (captureStep fps st d e.elapsed).frames.length := by
          simp [captureStep, h2]
        simpa [runLoop, hs, hp, hc] using ih (captureStep fps st d e.elapsed) h1' h2'

/-- The loop emits one `error:` event when it ends by exception, none
otherwise. -/
theorem runLoop_errCount (fps : Nat) (envs : List IterEnv) (st : LoopState)
    (h : st.errored = false) :
    errCount (runLoop fps envs st).events
      = errCount st.events + (if (runLoop fps envs st).errored then 1 else 0) := by
  induction envs generalizing st with
  | nil => simp [runLoop, h]
  | cons e rest ih =>
    by_cases hs : e.stopFlag
    · simp [runLoop, hs, h]
    by_cases hp : e.pauseFlag
    · simpa [runLoop, hs, hp] using ih st h
    cases hc : e.capture with
    | error msg =>
        simp [runLoop, hs, hp, hc, errCount_append, errCount]
    | ok d =>
        have h' : (captureStep fps st d e.elapsed).errored = false := by
          simpa [captureStep] using h
        have := ih (captureStep fps st d e.elapsed) h'
        simpa [runLoop, hs, hp, hc, captureStep] using this

/-- Once the loop has ended by exception, later iteration environments
are never consumed (the exception handler sets the stop flag and the
loop is over). -/
theorem runLoop_error_absorbs (fps : Nat) (envs more : List IterEnv) (st : LoopState)
    (h0 : st.errored = false)
    (h : (runLoop fps envs st).errored = true) :
    runLoop fps (envs ++ more) st = runLoop fps envs st := by
  induction envs generalizing st with
  | nil =>
    simp only [runLoop] at h
    rw [h0] at h
    cases h
  | cons e rest ih =>
    by_cases hs : e.stopFlag
    · simp only [runLoop, hs, if_pos] at h
      rw [h0] at h
      cases h
    by_cases hp : e.pauseFlag
    · have h' : (runLoop fps rest st).errored = true := by
        simpa [runLoop, hs, hp] using h
      simpa [runLoop, hs, hp] using ih st h0 h'
    cases hc : e.capture with
    | error msg => simp [runLoop, hs, hp, hc]
    | ok d =>
        have h0' : (captureStep fps st d e.elapsed).errored = false := by
          simpa [captureStep] using h0
        have h' : (runLoop fps rest (captureStep fps st d e.elapsed)).errored = true := by
          simpa [runLoop, hs, hp, hc] using h
        simpa [runLoop, hs, hp, hc] using ih (captureStep fps st d e.elapsed) h0' h'

/-- Post-loop code with at least one frame, successful assembly and no
server configured. -/
theorem finishRun_pos_none (fps : Nat) (outPath : String) (del : DeliveryOutcome)
    (st : LoopState) (h : st.frames.length ≠ 0) :
    finishRun fps none outPath AssemblyOutcome.ok del st =
      { events := st.events ++ [ProgressEvent.assembling]
        result := outPath
        spoolRemoved := false
        frameFilesRemoved := true
        artifact := some { frames := st.frames, fps := fps, path := outPath } } := by
  unfold finishRun
  rw [if_neg h]

/-- Post-loop code with at least one frame, successful assembly and a
server configured. -/
theorem finishRun_pos_some (fps : Nat) (srv outPath : String) (del : DeliveryOutcome)
    (st : LoopState) (h : st.frames.length ≠ 0) :
    finishRun fps (some srv) outPath AssemblyOutcome.ok del st =
      { events := st.events ++ [ProgressEvent.assembling, ProgressEvent.uploading]
        result := if extractUrl del = "" then outPath else extractUrl del
        spoolRemoved := false
        frameFilesRemoved := true
        artifact := some { frames := st.frames, fps := fps, path := outPath } } := by
  unfold finishRun
  rw [if_neg h]

/-- Whenever at least one frame was captured and assembly succeeds, the
produced artifact holds exactly the spooled frames at the configured fps. -/
theorem finishRun_ok_artifact (fps : Nat) (server_url : Option String) (outPath : String)
    (del : DeliveryOutcome) (st : LoopState) (h : st.frames.length ≠ 0) :
    (finishRun fps server_url outPath AssemblyOutcome.ok del st).artifact
      = some { frames := st.frames, fps := fps, path := outPath } := by
  cases server_url with
  | none => rw [finishRun_pos_none fps outPath del st h]
  | some srv => rw [finishRun_pos_some fps srv outPath del st h]

/-! ### Claim theorems -/

/-- C5: for every session that stops with zero frames captured, the
post-loop code emits `no_frames`, removes the entire spool directory,
reports an empty result to the caller and produces no artifact. -/
theorem no_frames_empty_result (fps : Nat) (server_url : Option String) (outPath : String)
    (envs : List IterEnv) (asm : AssemblyOutcome) (del : DeliveryOutcome)
    (h : (runLoop fps envs initState).frames = []) :
    (runSession fps server_url outPath envs asm del).events
      = (runLoop fps envs initState).events ++ [ProgressEvent.no_frames]
    ∧ (runSession fps server_url outPath envs asm del).spoolRemoved = true
    ∧ (runSession fps server_url outPath envs asm del).result = ""
    ∧ (runSession fps server_url outPath envs asm del).artifact = none := by
  unfold runSession finishRun
  rw [h]
  simp

/-- C5 witness: the concrete session that stops before any capture. -/
theorem no_frames_empty_result_witness :
    (runLoop 10 [] initState).frames = []
    ∧ ((runSession 10 none "out.gif" [] AssemblyOutcome.ok (DeliveryOutcome.exn "e")).events
        = (runLoop 10 [] initState).events ++ [ProgressEvent.no_frames]
      ∧ (runSession 10 none "out.gif" [] AssemblyOutcome.ok (DeliveryOutcome.exn "e")).spoolRemoved = true
      ∧ (runSession 10 none "out.gif" [] AssemblyOutcome.ok (DeliveryOutcome.exn "e")).result = ""
      ∧ (runSession 10 none "out.gif" [] AssemblyOutcome.ok (DeliveryOutcome.exn "e")).artifact = none) :=
  ⟨rfl, no_frames_empty_result 10 none "out.gif" [] AssemblyOutcome.ok (DeliveryOutcome.exn "e") rfl⟩

/-- C6: while the session is paused no frames are captured: a window of
paused iterations of any length leaves the loop state unchanged, and
capture continues from the same state on the iterations after the
window (after resume, or a stop check). -/
theorem pause_no_capture (fps : Nat) (window rest : List IterEnv) (st : LoopState)
    (h : ∀ e ∈ window, e.pauseFlag = true ∧ e.stopFlag = false) :
    runLoop fps (window ++ rest) st = runLoop fps rest st := by
  induction window with
  | nil => rfl
  | cons e w ih =>
    have he := h e (List.mem_cons_self e w)
    have hw : ∀ x ∈ w, x.pauseFlag = true ∧ x.stopFlag = false :=
      fun x hx => h x (List.mem_cons_of_mem _ hx)
    simpa [runLoop, he.1, he.2] using ih hw

/-- C6 witness: two paused poll iterations capture nothing. -/
theorem pause_no_capture_witness :
    (∀ e ∈ [envPause, envPause], e.pauseFlag = true ∧ e.stopFlag = false)
    ∧ runLoop 10 ([envPause, envPause] ++ [envOk]) initState = runLoop 10 [envOk] initState :=
  ⟨by decide, pause_no_capture 10 [envPause, envPause] [envOk] initState (by decide)⟩

/-- C7: `stop()` is idempotent — setting the stop flag twice equals
setting it once — and when the session is already stopping (not Running
or Paused) it is a no-op on the control flags. -/
theorem stop_idempotent (s : Flags) :
    stopRec (stopRec s) = stopRec s ∧ (s.stopFlag = true → stopRec s = s) := by
  constructor
  · rfl
  · intro h
    cases s with
    | mk p q =>
      simp only [stopRec]
      simp only [Flags.mk.injEq, true_and]
      exact h.symm

/-- C7 witness: concrete stopping state. -/
theorem stop_idempotent_witness :
    stopRec (stopRec { pauseFlag := false, stopFlag := true })
        = stopRec { pauseFlag := false, stopFlag := true }
    ∧ stopRec { pauseFlag := false, stopFlag := true }
        = { pauseFlag := false, stopFlag := true } :=
  ⟨(stop_idempotent { pauseFlag := false, stopFlag := true }).1,
   (stop_idempotent { pauseFlag := false, stopFlag := true }).2 rfl⟩

/-- C9: each loop iteration that captures and spools successfully ends
with a sleep of exactly `max 0 (1/FrameRate - elapsed)`: the positive
remainder when the work finished early, and no sleep at all when the
elapsed time reached the frame interval. -/
theorem loop_sleep_exact (fps : Nat) (e : IterEnv) (rest : List IterEnv)
    (st : LoopState) (d : FrameData)
    (hfps : 1 ≤ fps)
    (hstop : e.stopFlag = false) (hpause : e.pauseFlag = false)
    (hcap : e.capture = Except.ok d) :
    runLoop fps (e :: rest) st = runLoop fps rest (captureStep fps st d e.elapsed)
    ∧ toSleep fps e.elapsed = max 0 (frame_interval fps - e.elapsed)
    ∧ (frame_interval fps ≤ e.elapsed → toSleep fps e.elapsed = 0)
    ∧ (e.elapsed < frame_interval fps →
        toSleep fps e.elapsed = frame_interval fps - e.elapsed ∧ 0 < toSleep fps e.elapsed) := by
  refine ⟨by simp [runLoop, hstop, hpause, hcap], ?_, ?_, ?_⟩
  · unfold toSleep
    rcases lt_or_le 0 (frame_interval fps - e.elapsed) with h | h
    · rw [if_pos h, max_eq_right h.le]
    · rw [if_neg (not_lt.mpr h), max_eq_left h]
  · intro h
    unfold toSleep
    rw [if_neg (not_lt.mpr (by linarith))]
  · intro h
    have hpos : 0 < frame_interval fps - e.elapsed := by linarith
    unfold toSleep
    rw [if_pos hpos]
    exact ⟨rfl, hpos⟩

/-- C9 witness: fps 10, an instant capture, a full 1/10 s sleep. -/
theorem loop_sleep_exact_witness :
    runLoop 10 [envOk] initState = runLoop 10 [] (captureStep 10 initState 7 envOk.elapsed)
    ∧ toSleep 10 envOk.elapsed = max 0 (frame_interval 10 - envOk.elapsed)
    ∧ (frame_interval 10 ≤ envOk.elapsed → toSleep 10 envOk.elapsed = 0)
    ∧ (envOk.elapsed < frame_interval 10 →
        toSleep 10 envOk.elapsed = frame_interval 10 - envOk.elapsed
        ∧ 0 < toSleep 10 envOk.elapsed) :=
  loop_sleep_exact 10 envOk [] initState 7 (by decide) rfl rfl rfl

/-- C1: for every session with at least one captured frame whose
assembly succeeds, the assembled artifact holds exactly the captured
frames, their sequence numbers are `0, 1, ..., N-1` in order, and the
artifact's declared playback rate is the session's configured fps. -/
theorem artifact_order_and_fps (fps : Nat) (server_url : Option String) (outPath : String)
    (envs : List IterEnv) (del : DeliveryOutcome) (a : Artifact)
    (hN : 1 ≤ (runLoop fps envs initState).frames.length)
    (ha : (runSession fps server_url outPath envs AssemblyOutcome.ok del).artifact = some a) :
    a.frames = (runLoop fps envs initState).frames
    ∧ a.frames.map Prod.fst = List.range a.frames.length
    ∧ a.fps = fps := by
  have hinv := runLoop_frames_inv fps envs initState (by simp [initState]) (by simp [initState])
  have hlen : (runLoop fps envs initState).frames.length ≠ 0 := by omega
  unfold runSession at ha
  rw [finishRun_ok_artifact fps server_url outPath del _ hlen] at ha
  have ha' : a = { frames := (runLoop fps envs initState).frames, fps := fps, path := outPath } :=
    (Option.some.injEq _ _ ▸ ha).symm
  subst ha'
  refine ⟨rfl, ?_, rfl⟩
  rw [← hinv.2]
  exact hinv.1

/-- C1 witness: one captured frame at fps 10. -/
theorem artifact_order_and_fps_witness :
    (1 ≤ (runLoop 10 [envOk] initState).frames.length
    ∧ (runSession 10 none "out.gif" [envOk] AssemblyOutcome.ok (DeliveryOutcome.exn "e")).artifact
        = some { frames := [(0, 7)], fps := 10, path := "out.gif" })
    ∧ (Artifact.frames { frames := [(0, 7)], fps := 10, path := "out.gif" }
        = (runLoop 10 [envOk] initState).frames
      ∧ (Artifact.frames { frames := [(0, 7)], fps := 10, path := "out.gif" }).map Prod.fst
        = List.range (Artifact.frames { frames := [(0, 7)], fps := 10, path := "out.gif" }).length
      ∧ Artifact.fps { frames := [(0, 7)], fps := 10, path := "out.gif" } = 10) :=
  ⟨⟨by decide, by decide⟩,
   artifact_order_and_fps 10 none "out.gif" [envOk] (DeliveryOutcome.exn "e")
     { frames := [(0, 7)], fps := 10, path := "out.gif" } (by decide) (by decide)⟩

/-- C2 counterexample: a session whose delivery attempt raises (e.g. a
timeout) still removes the individual frame files — they are not
retained as the claim states. -/
theorem delivery_failure_frames_removed_cex :
    (runSession 10 (some "http://s") "out.gif" [envOk] AssemblyOutcome.ok
        (DeliveryOutcome.exn "timeout")).result = "out.gif"
    ∧ (runSession 10 (some "http://s") "out.gif" [envOk] AssemblyOutcome.ok
        (DeliveryOutcome.exn "timeout")).frameFilesRemoved = true := by
  decide

/-- C2 (amended): for every session with a configured delivery target
whose delivery attempt fails (timeout, non-success response, connection
error, so the extracted url is empty), the final result is the local
artifact path and the failure is not fatal (the artifact is produced and
kept), but the individual capture frame files are removed afterwards
just as on the success path. -/
theorem delivery_failure_local_path (fps : Nat) (srv outPath : String) (envs : List IterEnv)
    (del : DeliveryOutcome)
    (hframes : (runLoop fps envs initState).frames.length ≠ 0)
    (hfail : extractUrl del = "") :
    (runSession fps (some srv) outPath envs AssemblyOutcome.ok del).result = outPath
    ∧ (runSession fps (some srv) outPath envs AssemblyOutcome.ok del).frameFilesRemoved = true
    ∧ (runSession fps (some srv) outPath envs AssemblyOutcome.ok del).spoolRemoved = false
    ∧ (runSession fps (some srv) outPath envs AssemblyOutcome.ok del).artifact
        = some { frames := (runLoop fps envs initState).frames, fps := fps, path := outPath } := by
  unfold runSession
  rw [finishRun_pos_some fps srv outPath del _ hframes]
  simp [hfail]

/-- C2 (amended) witness: concrete timed-out delivery. -/
theorem delivery_failure_local_path_witness :
    ((runLoop 10 [envOk] initState).frames.length ≠ 0
    ∧ extractUrl (DeliveryOutcome.exn "timeout") = "")
    ∧ ((runSession 10 (some "http://s") "out.gif" [envOk] AssemblyOutcome.ok
          (DeliveryOutcome.exn "timeout")).result = "out.gif"
      ∧ (runSession 10 (some "http://s") "out.gif" [envOk] AssemblyOutcome.ok
          (DeliveryOutcome.exn "timeout")).frameFilesRemoved = true
      ∧ (runSession 10 (some "http://s") "out.gif" [envOk] AssemblyOutcome.ok
          (DeliveryOutcome.exn "timeout")).spoolRemoved = false
      ∧ (runSession 10 (some "http://s") "out.gif" [envOk] AssemblyOutcome.ok
          (DeliveryOutcome.exn "timeout")).artifact
          = some { frames := (runLoop 10 [envOk] initState).frames, fps := 10, path := "out.gif" }) :=
  ⟨⟨by decide, rfl⟩,
   delivery_failure_local_path 10 "http://s" "out.gif" [envOk]
     (DeliveryOutcome.exn "timeout") (by decide) rfl⟩

/-- C3 counterexample: a capture failure in the second iteration, after
one frame was already spooled, does not yield a failed/empty result —
the frames captured before the failure are assembled into an artifact
and the caller receives its local path. -/
theorem capture_failure_produces_artifact_cex :
    (runSession 10 none "out.gif" [envOk, envErr] AssemblyOutcome.ok
        (DeliveryOutcome.exn "e")).result = "out.gif"
    ∧ (runSession 10 none "out.gif" [envOk, envErr] AssemblyOutcome.ok
        (DeliveryOutcome.exn "e")).artifact
        = some { frames := [(0, 7)], fps := 10, path := "out.gif" }
    ∧ (runLoop 10 [envOk, envErr] initState).errored = true := by
  decide

/-- C3 (amended): a capture or spool failure ends the capture loop at
once: exactly one `error:<detail>` event is emitted and no further
iteration environments are consumed.  The caller receives an empty
result only when no frame had been captured before the failure; when at
least one frame was captured and assembly succeeds, those frames are
assembled into an artifact and the session completes like a normal stop. -/
theorem capture_failure_behavior (fps : Nat) (envs : List IterEnv)
    (herr : (runLoop fps envs initState).errored = true) :
    errCount (runLoop fps envs initState).events = 1
    ∧ (∀ more, runLoop fps (envs ++ more) initState = runLoop fps envs initState)
    ∧ (∀ server_url outPath del,
        ((runLoop fps envs initState).frames = [] →
          (runSession fps server_url outPath envs AssemblyOutcome.ok del).result = "")
        ∧ ((runLoop fps envs initState).frames.length ≠ 0 →
          (runSession fps server_url outPath envs AssemblyOutcome.ok del).artifact
            = some { frames := (runLoop fps envs initState).frames, fps := fps, path := outPath })) := by
  refine ⟨?_, ?_, ?_⟩
  · have h := runLoop_errCount fps envs initState (by simp [initState])
    rw [herr] at h
    simpa [initState, errCount] using h
  · intro more
    exact runLoop_error_absorbs fps envs more initState (by simp [initState]) herr
  · intro server_url outPath del
    constructor
    · intro h0
      unfold runSession finishRun
      rw [h0]
      simp
    · intro hne
      unfold runSession
      exact finishRun_ok_artifact fps server_url outPath del _ hne

/-- C3 (amended) witness: capture fails on the second iteration. -/
theorem capture_failure_behavior_witness :
    (runLoop 10 [envOk, envErr] initState).errored = true
    ∧ errCount (runLoop 10 [envOk, envErr] initState).events = 1
    ∧ (runSession 10 none "p.gif" [envOk, envErr] AssemblyOutcome.ok
        (DeliveryOutcome.exn "e")).artifact
        = some { frames := (runLoop 10 [envOk, envErr] initState).frames, fps := 10, path := "p.gif" } :=
  ⟨by decide,
   (capture_failure_behavior 10 [envOk, envErr] (by decide)).1,
   ((capture_failure_behavior 10 [envOk, envErr] (by decide)).2.2 none "p.gif"
      (DeliveryOutcome.exn "e")).2 (by decide)⟩

/-- C4: for every session whose delivery attempt succeeds (HTTP 200 and
a non-empty `url` field), the final result is the url received from the
store, the individual frame files are removed, and the assembled
artifact file remains on disk (the spool directory holding it is not
removed). -/
theorem delivery_success_behavior (fps : Nat) (srv outPath u : String) (envs : List IterEnv)
    (hframes : (runLoop fps envs initState).frames.length ≠ 0)
    (hu : u ≠ "") :
    (runSession fps (some srv) outPath envs AssemblyOutcome.ok
        (DeliveryOutcome.response 200 (some u))).result = u
    ∧ (runSession fps (some srv) outPath envs AssemblyOutcome.ok
        (DeliveryOutcome.response 200 (some u))).frameFilesRemoved = true
    ∧ (runSession fps (some srv) outPath envs AssemblyOutcome.ok
        (DeliveryOutcome.response 200 (some u))).spoolRemoved = false
    ∧ (runSession fps (some srv) outPath envs AssemblyOutcome.ok
        (DeliveryOutcome.response 200 (some u))).artifact
        = some { frames := (runLoop fps envs initState).frames, fps := fps, path := outPath } := by
  unfold runSession
  rw [finishRun_pos_some fps srv outPath _ _ hframes]
  simp [extractUrl, hu]

/-- C4 witness: the store answers 200 with a url. -/
theorem delivery_success_behavior_witness :
    ((runLoop 10 [envOk] initState).frames.length ≠ 0 ∧ "http://store/x.gif" ≠ "")
    ∧ ((runSession 10 (some "http://s") "out.gif" [envOk] AssemblyOutcome.ok
          (DeliveryOutcome.response 200 (some "http://store/x.gif"))).result = "http://store/x.gif"
      ∧ (runSession 10 (some "http://s") "out.gif" [envOk] AssemblyOutcome.ok
          (DeliveryOutcome.response 200 (some "http://store/x.gif"))).frameFilesRemoved = true
      ∧ (runSession 10 (some "http://s") "out.gif" [envOk] AssemblyOutcome.ok
          (DeliveryOutcome.response 200 (some "http://store/x.gif"))).spoolRemoved = false
      ∧ (runSession 10 (some "http://s") "out.gif" [envOk] AssemblyOutcome.ok
          (DeliveryOutcome.response 200 (some "http://store/x.gif"))).artifact
          = some { frames := (runLoop 10 [envOk] initState).frames, fps := 10, path := "out.gif" }) :=
  ⟨⟨by decide, by decide⟩,
   delivery_success_behavior 10 "http://s" "out.gif" "http://store/x.gif" [envOk]
     (by decide) (by decide)⟩

/-- C8 counterexample: the code compares the status to 200 exactly, not
to the 2xx range — a 201 response carrying a url field is treated as
failure (fallback to the local path); and a 200 response whose url field
is the empty string also falls back instead of succeeding with that
reference. -/
theorem delivery_non200_cex :
    (runSession 10 (some "http://s") "out.gif" [envOk] AssemblyOutcome.ok
        (DeliveryOutcome.response 201 (some "http://store/x.gif"))).result = "out.gif"
    ∧ (runSession 10 (some "http://s") "out.gif" [envOk] AssemblyOutcome.ok
        (DeliveryOutcome.response 200 (some ""))).result = "out.gif" := by
  decide

/-- C8 (amended): delivery treats any status other than exactly 200, and
any transport error, as failure (fallback to the local path); on a 200
response it takes the remote locator from the `url` field of the JSON
body, and the attempt succeeds exactly when that field is present and
non-empty, the result then being that remote reference. -/
theorem delivery_status_amended (fps : Nat) (srv outPath : String) (envs : List IterEnv)
    (status : Nat) (urlField : Option String)
    (hframes : (runLoop fps envs initState).frames.length ≠ 0) :
    (status ≠ 200 →
      (runSession fps (some srv) outPath envs AssemblyOutcome.ok
        (DeliveryOutcome.response status urlField)).result = outPath)
    ∧ (status = 200 → urlField = none →
      (runSession fps (some srv) outPath envs AssemblyOutcome.ok
        (DeliveryOutcome.response status urlField)).result = outPath)
    ∧ (∀ u, status = 200 → urlField = some u → u = "" →
      (runSession fps (some srv) outPath envs AssemblyOutcome.ok
        (DeliveryOutcome.response status urlField)).result = outPath)
    ∧ (∀ u, status = 200 → urlField = some u → u ≠ "" →
      (runSession fps (some srv) outPath envs AssemblyOutcome.ok
        (DeliveryOutcome.response status urlField)).result = u)
    ∧ (∀ msg,
      (runSession fps (some srv) outPath envs AssemblyOutcome.ok
        (DeliveryOutcome.exn msg)).result = outPath) := by
  refine ⟨?_, ?_, ?_, ?_, ?_⟩
  · intro hst
    unfold runSession
    rw [finishRun_pos_some fps srv outPath _ _ hframes]
    simp [extractUrl, hst]
  · intro hst huf
    subst hst
    subst huf
    unfold runSession
    rw [finishRun_pos_some fps srv outPath _ _ hframes]
    simp [extractUrl]
  · intro u hst huf hu
    subst hst
    subst huf
    subst hu
    unfold runSession
    rw [finishRun_pos_some fps srv outPath _ _ hframes]
    simp [extractUrl]
  · intro u hst huf hu
    subst hst
    subst huf
    unfold runSession
    rw [finishRun_pos_some fps srv outPath _ _ hframes]
    simp [extractUrl, hu]
  · intro msg
    unfold runSession
    rw [finishRun_pos_some fps srv outPath _ _ hframes]
    simp [extractUrl]

/-- C8 (amended) witness: status 404 falls back, status 200 with a
missing url field falls back, status 200 with an empty url field falls
back, status 200 with a url succeeds, an exception falls back. -/
theorem delivery_status_amended_witness :
    (runLoop 10 [envOk] initState).frames.length ≠ 0
    ∧ (runSession 10 (some "http://s") "out.gif" [envOk] AssemblyOutcome.ok
        (DeliveryOutcome.response 404 (some "http://store/x.gif"))).result = "out.gif"
    ∧ (runSession 10 (some "http://s") "out.gif" [envOk] AssemblyOutcome.ok
        (DeliveryOutcome.response 200 none)).result = "out.gif"
    ∧ (runSession 10 (some "http://s") "out.gif" [envOk] AssemblyOutcome.ok
        (DeliveryOutcome.response 200 (some ""))).result = "out.gif"
    ∧ (runSession 10 (some "http://s") "out.gif" [envOk] AssemblyOutcome.ok
        (DeliveryOutcome.response 200 (some "http://store/x.gif"))).result = "http://store/x.gif"
    ∧ (runSession 10 (some "http://s") "out.gif" [envOk] AssemblyOutcome.ok
        (DeliveryOutcome.exn "refused")).result = "out.gif" :=
  ⟨by decide,
   (delivery_status_amended 10 "http://s" "out.gif" [envOk] 404
      (some "http://store/x.gif") (by decide)).1 (by decide),
   (delivery_status_amended 10 "http://s" "out.gif" [envOk] 200
      none (by decide)).2.1 rfl rfl,
   (delivery_status_amended 10 "http://s" "out.gif" [envOk] 200
      (some "") (by decide)).2.2.1 "" rfl rfl rfl,
   (delivery_status_amended 10 "http://s" "out.gif" [envOk] 200
      (some "http://store/x.gif") (by decide)).2.2.2.1 "http://store/x.gif" rfl rfl (by decide),
   (delivery_status_amended 10 "http://s" "out.gif" [envOk] 404
      (some "http://store/x.gif") (by decide)).2.2.2.2 "refused"⟩

/-- C10: a 200 response whose `url` field is missing, null or the empty
string does not fail the session — the result falls back to the local
artifact path exactly as on a failed delivery, and the artifact is kept. -/
theorem empty_url_fallback (fps : Nat) (srv outPath : String) (envs : List IterEnv)
    (urlField : Option String)
    (hframes : (runLoop fps envs initState).frames.length ≠ 0)
    (hu : urlField = none ∨ urlField = some "") :
    (runSession fps (some srv) outPath envs AssemblyOutcome.ok
        (DeliveryOutcome.response 200 urlField)).result = outPath
    ∧ (runSession fps (some srv) outPath envs AssemblyOutcome.ok
        (DeliveryOutcome.response 200 urlField)).artifact
        = some { frames := (runLoop fps envs initState).frames, fps := fps, path := outPath } := by
  unfold runSession
  rw [finishRun_pos_some fps srv outPath _ _ hframes]
  rcases hu with h | h <;> subst h <;> simp [extractUrl]

/-- C10 witness: the store answers 200 with no url field. -/
theorem empty_url_fallback_witness :
    ((runLoop 10 [envOk] initState).frames.length ≠ 0
    ∧ ((none : Option String) = none ∨ (none : Option String) = some ""))
    ∧ ((runSession 10 (some "http://s") "out.gif" [envOk] AssemblyOutcome.ok
          (DeliveryOutcome.response 200 none)).result = "out.gif"
      ∧ (runSession 10 (some "http://s") "out.gif" [envOk] AssemblyOutcome.ok
          (DeliveryOutcome.response 200 none)).artifact
          = some { frames := (runLoop 10 [envOk] initState).frames, fps := 10, path := "out.gif" }) :=
  ⟨⟨by decide, Or.inl rfl⟩,
   empty_url_fallback 10 "http://s" "out.gif" [envOk] none (by decide) (Or.inl rfl)⟩

end Gyazio
